import Mathlib

/-!
Shallow embedding of the client-side dashboard controller of oapi_canteen
(src/static/js/custom.js, class `Dashboard`).

The DOM elements the script touches are modelled as an explicit record
(`Dom`); each async handler becomes a pure function from the pre-state and
the outcome of its network call to an `OpResult` holding the post-state,
the list of endpoints the handler hit, and whether it scheduled a page
reload.  A transport failure and a JSON-parse failure both land in the
`catch` block of the source, so both are modelled by `FetchResult.fail`.
Numeric JSON fields that may be absent are `Option Int`; an absent field is
JavaScript `undefined`, which string-interpolates as `"undefined"` and
compares as false under `> 0`.
-/

namespace OapiDashboard

/-- Rendering of a possibly-undefined JS number the way `textContent`
assignment or template interpolation renders it. -/
def jsNumString : Option Int → String
  | some n => toString n
  | none => "undefined"

/-- The test `count > 0` on a possibly-undefined JS number: a comparison
with `undefined` is false. -/
def jsNumPos : Option Int → Bool
  | some n => decide (0 < n)
  | none => false

/-- JS `s || fallback` on a possibly-absent string field: a missing field
and the empty string are both falsy. -/
def strOr (m : Option String) (fallback : String) : String :=
  match m with
  | some s => if s = "" then fallback else s
  | none => fallback

/-- JS `n || 0` on a possibly-absent number field (`data.count || 0`). -/
def numOrZero (m : Option Int) : Int :=
  match m with
  | some n => if n = 0 then 0 else n
  | none => 0

/-- A badge element (`#cart-badge` / `#notification-badge`): its
`textContent` and its inline `style.display`. -/
structure BadgeEl where
  text : String
  display : String
deriving DecidableEq

/-- One toast produced by `showToast(message, type)`. -/
structure Toast where
  message : String
  kind : String
deriving DecidableEq

/-- The `#search-results` panel: whether its class list holds `d-none`,
and its `innerHTML`. -/
structure SearchPanel where
  hidden : Bool
  innerHTML : String
deriving DecidableEq

/-- The slice of the page state the script reads and writes.  An `Option`
field is `none` when the corresponding element is absent from the page
(`getElementById` returned null / `querySelector` found nothing). -/
structure Dom where
  cartBadge : Option BadgeEl
  notifBadge : Option BadgeEl
  /-- `textContent` of the `[data-quantity-for=id]` element, per item id. -/
  quantityText : String → Option String
  /-- Item ids that have a `[data-cart-item=id]` node on the page. -/
  cartItems : List String
  /-- `textContent` of `#cart-total`. -/
  cartTotalText : Option String
  searchResults : Option SearchPanel
  /-- `innerHTML` of `#notification-menu`. -/
  notifMenu : Option String
  /-- `textContent` of the `stat-<key>` elements, per element id. -/
  statText : String → Option String
  toasts : List Toast
  /-- `style.display` of `#loading-indicator`; `none` = element not created yet. -/
  loadingDisplay : Option String

/-- Outcome of one `fetch(...)` + `response.json()`: a parsed payload, or
the `catch` path (transport failure or malformed JSON). -/
inductive FetchResult (α : Type) where
  | ok (data : α)
  | fail
deriving DecidableEq

/-- Result of running one handler: the new page state, the endpoints the
handler requested, and whether a `window.location.reload` was scheduled. -/
structure OpResult where
  dom : Dom
  requests : List String
  reload : Bool

/-- Payload shape of the cart endpoints
(`success, message, cart_count, new_quantity, cart_total`). -/
structure CartResponse where
  success : Bool
  message : Option String
  cart_count : Option Int
  new_quantity : Option Int
  cart_total : Option Int

/-- Payload shape of `/orders/update-status/` and `/orders/cancel/<id>/`. -/
structure StatusResponse where
  success : Bool
  message : Option String

/-- Payload shape of `/orders/api/cart/count/`. -/
structure CountResponse where
  count : Option Int

/-- One search result item (`id, name, price, image`). -/
structure SearchItem where
  id : String
  name : String
  price : Int
  image : Option String

/-- Payload shape of `/menu/api/items/?search=`. -/
structure SearchResponse where
  items : List SearchItem

/-- One notification (`title, message, url, time`). -/
structure NotificationItem where
  title : String
  message : String
  url : String
  time : String

/-- Payload of `/dashboard/api/order-stats/`: an arbitrary key/value map,
kept as an association list in server order. -/
structure StatsResponse where
  pairs : List (String × String)

def cartAddUrl : String := "/orders/api/cart/add/"

def cartUpdateUrl : String := "/orders/api/cart/update/"

def cartRemoveUrl : String := "/orders/api/cart/remove/"

def cartCountUrl : String := "/orders/api/cart/count/"

def orderStatusUrl : String := "/orders/update-status/"

def orderCancelUrl (orderId : String) : String :=
  "/orders/cancel/" ++ orderId ++ "/"

/-- URL of the search endpoint.  The browser builtin percent-encoding
(`encodeURIComponent`) is not modelled; the query is carried verbatim. -/
def menuSearchUrl (query : String) : String :=
  "/menu/api/items/?search=" ++ query

def notificationsUrl : String := "/dashboard/api/notifications/"

def orderStatsUrl : String := "/dashboard/api/order-stats/"

/-- `showToast(message, type)`: appends one toast to the container (the
container itself is created on demand; only the toast list is observable
here). -/
def showToast (dom : Dom) (message : String) (kind : String) : Dom :=
  { dom with toasts := dom.toasts ++ [⟨message, kind⟩] }

/-- `showLoading(message)`: creates the indicator if needed and displays it.
The spinner markup inside it is not tracked, only the display state. -/
def showLoading (dom : Dom) : Dom :=
  { dom with loadingDisplay := some ("block") }

/-- `hideLoading()`: sets `display = none` when the indicator element
exists, and is a no-op when it was never created. -/
def hideLoading (dom : Dom) : Dom :=
  match dom.loadingDisplay with
  | some _ => { dom with loadingDisplay := some ("none") }
  | none => dom

/-- `updateCartBadge(count)` with a non-null argument: when the badge
element exists, set `textContent = count` and
`display = count > 0 ? inline : none`.  The argument may itself be the
`undefined` of a missing response field. -/
def updateCartBadgeWith (dom : Dom) (count : Option Int) : Dom :=
  match dom.cartBadge with
  | none => dom
  | some _ =>
      let b : BadgeEl := ⟨jsNumString count, if jsNumPos count then "inline" else "none"⟩
      { dom with cartBadge := some b }

/-- `fetchCartCount()`: returns `data.count || 0`, and `0` on the catch
path. -/
def fetchCartCount (r : FetchResult CountResponse) : Int :=
  match r with
  | .ok data => numOrZero data.count
  | .fail => 0

/-- `updateCartBadge()` with no argument: when the badge exists, fetch the
count and set `textContent` / `display` from the fetched value. -/
def updateCartBadgeAuto (dom : Dom) (r : FetchResult CountResponse) : Dom :=
  match dom.cartBadge with
  | none => dom
  | some _ =>
      let c := fetchCartCount r
      let b : BadgeEl := ⟨toString c, if 0 < c then "inline" else "none"⟩
      { dom with cartBadge := some b }

/-- `addToCart`: show loading, POST to the add endpoint, then branch on
`data.success`, always hiding the loading indicator in `finally`. -/
def addToCart (dom : Dom) (r : FetchResult CartResponse) : OpResult :=
  let d0 := showLoading dom
  match r with
  | .ok data =>
      if data.success then
        ⟨hideLoading (updateCartBadgeWith
            (showToast d0 ("Item added to cart!") ("success")) data.cart_count),
          [cartAddUrl], false⟩
      else
        ⟨hideLoading (showToast d0
            (strOr data.message ("Failed to add item to cart")) ("error")),
          [cartAddUrl], false⟩
  | .fail =>
      ⟨hideLoading (showToast d0 ("Error adding item to cart") ("error")),
        [cartAddUrl], false⟩

/-- The quantity-display update inside `updateCartQuantity`: when the
`[data-quantity-for=id]` element exists, set its text to
`data.new_quantity`. -/
def setQuantityText (dom : Dom) (menuItemId : String) (q : Option Int) : Dom :=
  match dom.quantityText menuItemId with
  | none => dom
  | some _ =>
      { dom with quantityText :=
          fun i => if i = menuItemId then some (jsNumString q) else dom.quantityText i }

/-- `updateCartTotal(total)`: when `#cart-total` exists, set its text to
the interpolation of the given total with the currency suffix. -/
def updateCartTotal (dom : Dom) (total : Option Int) : Dom :=
  match dom.cartTotalText with
  | none => dom
  | some _ => { dom with cartTotalText := some (jsNumString total ++ " XAF") }

/-- `updateCartQuantity`: POST to the update endpoint; on success set the
per-item quantity, the badge and the total from the response fields; on
failure or on the catch path show an error toast. -/
def updateCartQuantity (dom : Dom) (menuItemId : String)
    (r : FetchResult CartResponse) : OpResult :=
  match r with
  | .ok data =>
      if data.success then
        ⟨updateCartTotal
            (updateCartBadgeWith
              (setQuantityText dom menuItemId data.new_quantity) data.cart_count)
            data.cart_total,
          [cartUpdateUrl], false⟩
      else
        ⟨showToast dom (strOr data.message ("Failed to update cart")) ("error"),
          [cartUpdateUrl], false⟩
  | .fail =>
      ⟨showToast dom ("Error updating cart") ("error"), [cartUpdateUrl], false⟩

/-- `removeFromCart`: an early return when the confirmation dialog is
declined; otherwise POST, and on success drop the `[data-cart-item]` node,
refresh badge and total, and toast. -/
def removeFromCart (dom : Dom) (menuItemId : String) (confirmed : Bool)
    (r : FetchResult CartResponse) : OpResult :=
  if confirmed then
    match r with
    | .ok data =>
        if data.success then
          let d1 := { dom with cartItems := dom.cartItems.erase menuItemId }
          ⟨showToast
              (updateCartTotal (updateCartBadgeWith d1 data.cart_count) data.cart_total)
              ("Item removed from cart") ("success"),
            [cartRemoveUrl], false⟩
        else
          ⟨showToast dom (strOr data.message ("Failed to remove item")) ("error"),
            [cartRemoveUrl], false⟩
    | .fail =>
        ⟨showToast dom ("Error removing item from cart") ("error"),
          [cartRemoveUrl], false⟩
  else ⟨dom, [], false⟩

/-- `updateOrderStatus`: show loading, POST the new status, toast either
way, schedule a reload on success, always hide loading. -/
def updateOrderStatus (dom : Dom) (r : FetchResult StatusResponse) : OpResult :=
  let d0 := showLoading dom
  match r with
  | .ok data =>
      if data.success then
        ⟨hideLoading (showToast d0 ("Order status updated successfully") ("success")),
          [orderStatusUrl], true⟩
      else
        ⟨hideLoading (showToast d0
            (strOr data.message ("Failed to update order status")) ("error")),
          [orderStatusUrl], false⟩
  | .fail =>
      ⟨hideLoading (showToast d0 ("Error updating order status") ("error")),
        [orderStatusUrl], false⟩

/-- `cancelOrder`: an early return when the confirmation dialog is
declined; otherwise show loading, POST, toast either way, schedule a
reload on success, always hide loading. -/
def cancelOrder (dom : Dom) (orderId : String) (confirmed : Bool)
    (r : FetchResult StatusResponse) : OpResult :=
  if confirmed then
    let d0 := showLoading dom
    match r with
    | .ok data =>
        if data.success then
          ⟨hideLoading (showToast d0 ("Order cancelled successfully") ("success")),
            [orderCancelUrl orderId], true⟩
        else
          ⟨hideLoading (showToast d0
              (strOr data.message ("Failed to cancel order")) ("error")),
            [orderCancelUrl orderId], false⟩
    | .fail =>
        ⟨hideLoading (showToast d0 ("Error cancelling order") ("error")),
          [orderCancelUrl orderId], false⟩
  else ⟨dom, [], false⟩

/-- HTML of one search result row, as built by the template literal in
`displaySearchResults` (whitespace between tags normalized away). -/
def searchRowHTML (item : SearchItem) : String :=
  "<div class=\"search-result-item p-2 border-bottom\">" ++
  "<div class=\"d-flex align-items-center\">" ++
  "<img src=\"" ++ strOr item.image ("/static/images/placeholder.jpg") ++
  "\" alt=\"" ++ item.name ++ "\" class=\"rounded me-2\" width=\"40\" height=\"40\">" ++
  "<div class=\"flex-grow-1\">" ++
  "<h6 class=\"mb-0\">" ++ item.name ++ "</h6>" ++
  "<small class=\"text-muted\">" ++ toString item.price ++ " XAF</small>" ++
  "</div>" ++
  "<button class=\"btn btn-sm btn-primary add-to-cart-btn\" data-menu-item-id=\"" ++
  item.id ++ "\">" ++
  "<i class=\"bi bi-plus\"></i>" ++
  "</button>" ++
  "</div>" ++
  "</div>"

/-- The row fragments produced by `items.map(...)` in
`displaySearchResults`: one row per returned item, no cap. -/
def searchResultRows (items : List SearchItem) : List String :=
  items.map searchRowHTML

def noResultsHTML : String := "<div class=\"text-center p-3\">No items found</div>"

/-- `displaySearchResults(items)`: when the panel exists, replace its
`innerHTML` (empty-result message, or the joined rows) and drop `d-none`. -/
def displaySearchResults (dom : Dom) (items : List SearchItem) : Dom :=
  match dom.searchResults with
  | none => dom
  | some _ =>
      let html := if items.length = 0 then noResultsHTML
                  else String.join (searchResultRows items)
      { dom with searchResults := some ⟨false, html⟩ }

/-- The short-query branch of `searchMenu`: optional-chained
`classList.add` of `d-none` on the panel. -/
def hideSearchPanel (dom : Dom) : Dom :=
  match dom.searchResults with
  | none => dom
  | some p => { dom with searchResults := some { p with hidden := true } }

/-- `searchMenu(query)`: an early return hiding the panel for queries
shorter than 2 characters (no request); otherwise GET the search endpoint
and display the items, with the catch path only logging to the console. -/
def searchMenu (dom : Dom) (query : String) (r : FetchResult SearchResponse) : OpResult :=
  if query.length < 2 then ⟨hideSearchPanel dom, [], false⟩
  else
    match r with
    | .ok data => ⟨displaySearchResults dom data.items, [menuSearchUrl query], false⟩
    | .fail => ⟨dom, [menuSearchUrl query], false⟩

/-- `updateNotificationBadge(count)`: when the badge exists, set its text
to the count and toggle visibility on `count > 0`. -/
def updateNotificationBadge (dom : Dom) (count : Nat) : Dom :=
  match dom.notifBadge with
  | none => dom
  | some _ =>
      let b : BadgeEl := ⟨toString count, if 0 < count then "inline" else "none"⟩
      { dom with notifBadge := some b }

/-- HTML of one notification entry, as built by the template literal in
`displayNotifications` (whitespace between tags normalized away). -/
def notificationRowHTML (n : NotificationItem) : String :=
  "<li>" ++
  "<a class=\"dropdown-item notification-item\" href=\"" ++ n.url ++ "\">" ++
  "<div class=\"d-flex justify-content-between align-items-start\">" ++
  "<div>" ++
  "<h6 class=\"dropdown-header\">" ++ n.title ++ "</h6>" ++
  "<p class=\"mb-0 small\">" ++ n.message ++ "</p>" ++
  "</div>" ++
  "<small class=\"text-muted\">" ++ n.time ++ "</small>" ++
  "</div>" ++
  "</a>" ++
  "</li>"

/-- The whole `innerHTML` assigned to `#notification-menu`: header and
divider, then either the empty message or one entry per notification. -/
def notificationsHTML (ns : List NotificationItem) : String :=
  let header := "<li class=\"dropdown-header\">Notifications</li>" ++
    "<li><hr class=\"dropdown-divider\"></li>"
  if ns.length = 0 then
    header ++ "<li class=\"dropdown-item-text text-center text-muted\">No new notifications</li>"
  else
    header ++ String.join (ns.map notificationRowHTML)

/-- `displayNotifications(notifications)`: when the menu exists, its
`innerHTML` is wholesale replaced by the rendering of the snapshot. -/
def displayNotifications (dom : Dom) (ns : List NotificationItem) : Dom :=
  match dom.notifMenu with
  | none => dom
  | some _ => { dom with notifMenu := some (notificationsHTML ns) }

/-- The success path of `loadNotifications`: badge from the snapshot
length, then the menu from the snapshot. -/
def notifRefresh (dom : Dom) (ns : List NotificationItem) : Dom :=
  displayNotifications (updateNotificationBadge dom ns.length) ns

/-- `loadNotifications()`: GET the endpoint; on success refresh badge and
menu from the snapshot; the catch path only logs to the console. -/
def loadNotifications (dom : Dom) (r : FetchResult (List NotificationItem)) : OpResult :=
  match r with
  | .ok ns => ⟨notifRefresh dom ns, [notificationsUrl], false⟩
  | .fail => ⟨dom, [notificationsUrl], false⟩

/-- One key of the stats response applied to the page: only keys with a
matching `stat-<key>` element change anything. -/
def applyStat (dom : Dom) (key val : String) : Dom :=
  match dom.statText ("stat-" ++ key) with
  | none => dom
  | some _ =>
      { dom with statText :=
          fun k => if k = "stat-" ++ key then some val else dom.statText k }

/-- `updateOrderStats()`: GET the endpoint and fold every response key over
the page; the catch path only logs to the console. -/
def updateOrderStats (dom : Dom) (r : FetchResult StatsResponse) : OpResult :=
  match r with
  | .ok data =>
      ⟨data.pairs.foldl (fun d kv => applyStat d kv.1 kv.2) dom, [orderStatsUrl], false⟩
  | .fail => ⟨dom, [orderStatsUrl], false⟩

/-- Debounced input handling of `setupSearchListeners`: each keystroke
clears the pending timer and schedules `searchMenu` 300 ms later.  The
input is a chronological list of `(time, field text after the keystroke)`;
the output is the list of `(fire time, text read at fire time)` of the
timers that actually fire.  A timer scheduled at `t` is cleared when the
next keystroke arrives before `t + 300`. -/
def debounceRuns : List (Nat × String) → List (Nat × String)
  | [] => []
  | [(t, s)] => [(t + 300, s)]
  | (t, s) :: (t2, s2) :: rest =>
      if t2 < t + 300 then debounceRuns ((t2, s2) :: rest)
      else (t + 300, s) :: debounceRuns ((t2, s2) :: rest)

/-- A keystroke sequence is tight when it is chronological and every
consecutive pair is separated by less than 300 ms. -/
def tightSeq : List (Nat × String) → Bool
  | (t1, _) :: (t2, s2) :: rest =>
      decide (t1 ≤ t2) && decide (t2 < t1 + 300) && tightSeq ((t2, s2) :: rest)
  | _ => true

/-- `setInterval(f, period)` fires at `period, 2*period, ...`. -/
def setIntervalTimes (period k : Nat) : Nat := period * (k + 1)

/-- Times (ms after page load) at which the constructor-driven refresh of
badge, notifications and stats runs: `loadInitialData` right away, then
the `setInterval(..., 30000)` ticks of `startRealTimeUpdates`. -/
def refreshTimes : Nat → Nat
  | 0 => 0
  | k + 1 => setIntervalTimes 30000 k

/-- A concrete page state used as a test fixture: both badges present and
hidden, a hidden empty search panel, an empty notification menu, no cart
rows, no toasts, no loading indicator yet. -/
def initialDom : Dom :=
  { cartBadge := some ⟨"0", "none"⟩,
    notifBadge := some ⟨"0", "none"⟩,
    quantityText := fun _ => none,
    cartItems := [],
    cartTotalText := none,
    searchResults := some ⟨true, ""⟩,
    notifMenu := some (""),
    statText := fun _ => none,
    toasts := [],
    loadingDisplay := none }

/-- A page state with a quantity display for item 7 and a cart total,
used as a test fixture for the cart-page operations. -/
def cartPageDom : Dom :=
  { initialDom with
    quantityText := fun i => if i = "7" then some ("1") else none,
    cartTotalText := some ("500 XAF") }

/-!
Theorems settling the frozen claims.
-/

/-- Claim C5: an invocation of removeFromCart or cancelOrder in which the
user declines the confirmation prompt issues zero network calls and
returns the page state exactly as it was: no badge, total, cart item,
toast or loading change, and no reload scheduled. -/
theorem C5_declined_confirmation_is_noop (dom : Dom) (menuItemId orderId : String)
    (rc : FetchResult CartResponse) (rs : FetchResult StatusResponse) :
    removeFromCart dom menuItemId false rc = ⟨dom, [], false⟩ ∧
    cancelOrder dom orderId false rs = ⟨dom, [], false⟩ :=
  ⟨rfl, rfl⟩

/-- Claim C3: a search query shorter than 2 characters issues no network
request and schedules no reload; the resulting page state is exactly the
input state with the hidden class added to the search panel when that
panel exists, and is unchanged when it does not. -/
theorem C3_short_query_no_request (dom : Dom) (query : String)
    (r : FetchResult SearchResponse) (h : query.length < 2) :
    (searchMenu dom query r).requests = [] ∧
    (searchMenu dom query r).reload = false ∧
    (searchMenu dom query r).dom = hideSearchPanel dom ∧
    (dom.searchResults = none → hideSearchPanel dom = dom) ∧
    ∀ p, dom.searchResults = some p →
      hideSearchPanel dom = { dom with searchResults := some { p with hidden := true } } := by
  refine ⟨?_, ?_, ?_, ?_, ?_⟩
  · simp [searchMenu, h]
  · simp [searchMenu, h]
  · simp [searchMenu, h]
  · intro hn
    simp [hideSearchPanel, hn]
  · intro p hp
    simp [hideSearchPanel, hp]

/-- Witness for C3 at a concrete one-character query. -/
theorem C3_short_query_no_request_witness :
    ("a").length < 2 ∧
    (searchMenu initialDom ("a") FetchResult.fail).requests = [] :=
  ⟨by decide, (C3_short_query_no_request initialDom ("a") FetchResult.fail (by decide)).1⟩

/-- Claim C2: for each cart mutation, a success:false payload leaves the
cart badge, every per-item quantity display, the cart total and the set of
cart item nodes untouched; the toast list gains exactly one error toast
carrying the server message (or the generic fallback). -/
theorem C2_failure_leaves_cart_dom_unchanged (dom : Dom) (menuItemId : String)
    (msg : Option String) (cc nq ct : Option Int) :
    ((addToCart dom (.ok ⟨false, msg, cc, nq, ct⟩)).dom.cartBadge = dom.cartBadge ∧
      (addToCart dom (.ok ⟨false, msg, cc, nq, ct⟩)).dom.quantityText = dom.quantityText ∧
      (addToCart dom (.ok ⟨false, msg, cc, nq, ct⟩)).dom.cartTotalText = dom.cartTotalText ∧
      (addToCart dom (.ok ⟨false, msg, cc, nq, ct⟩)).dom.cartItems = dom.cartItems ∧
      (addToCart dom (.ok ⟨false, msg, cc, nq, ct⟩)).dom.toasts =
        dom.toasts ++ [⟨strOr msg ("Failed to add item to cart"), "error"⟩]) ∧
    ((updateCartQuantity dom menuItemId (.ok ⟨false, msg, cc, nq, ct⟩)).dom.cartBadge = dom.cartBadge ∧
      (updateCartQuantity dom menuItemId (.ok ⟨false, msg, cc, nq, ct⟩)).dom.quantityText = dom.quantityText ∧
      (updateCartQuantity dom menuItemId (.ok ⟨false, msg, cc, nq, ct⟩)).dom.cartTotalText = dom.cartTotalText ∧
      (updateCartQuantity dom menuItemId (.ok ⟨false, msg, cc, nq, ct⟩)).dom.cartItems = dom.cartItems ∧
      (updateCartQuantity dom menuItemId (.ok ⟨false, msg, cc, nq, ct⟩)).dom.toasts =
        dom.toasts ++ [⟨strOr msg ("Failed to update cart"), "error"⟩]) ∧
    ((removeFromCart dom menuItemId true (.ok ⟨false, msg, cc, nq, ct⟩)).dom.cartBadge = dom.cartBadge ∧
      (removeFromCart dom menuItemId true (.ok ⟨false, msg, cc, nq, ct⟩)).dom.quantityText = dom.quantityText ∧
      (removeFromCart dom menuItemId true (.ok ⟨false, msg, cc, nq, ct⟩)).dom.cartTotalText = dom.cartTotalText ∧
      (removeFromCart dom menuItemId true (.ok ⟨false, msg, cc, nq, ct⟩)).dom.cartItems = dom.cartItems ∧
      (removeFromCart dom menuItemId true (.ok ⟨false, msg, cc, nq, ct⟩)).dom.toasts =
        dom.toasts ++ [⟨strOr msg ("Failed to remove item"), "error"⟩]) :=
  ⟨⟨rfl, rfl, rfl, rfl, rfl⟩, ⟨rfl, rfl, rfl, rfl, rfl⟩, ⟨rfl, rfl, rfl, rfl, rfl⟩⟩

/-- Claim C6: addToCart success with a cart_count sets the badge text to
that count and shows a success toast; success:false shows the server
message (or the fallback) as an error toast; the loading indicator reads
display none at the end of every outcome. -/
theorem C6_addToCart_contract (dom : Dom) (b : BadgeEl) (n : Int)
    (msg : Option String) (cc nq ct : Option Int) (r : FetchResult CartResponse)
    (hb : dom.cartBadge = some b) :
    (addToCart dom (.ok ⟨true, msg, some n, nq, ct⟩)).dom.cartBadge =
      some ⟨toString n, if 0 < n then "inline" else "none"⟩ ∧
    (addToCart dom (.ok ⟨true, msg, some n, nq, ct⟩)).dom.toasts =
      dom.toasts ++ [⟨"Item added to cart!", "success"⟩] ∧
    (addToCart dom (.ok ⟨false, msg, cc, nq, ct⟩)).dom.toasts =
      dom.toasts ++ [⟨strOr msg ("Failed to add item to cart"), "error"⟩] ∧
    (addToCart dom FetchResult.fail).dom.toasts =
      dom.toasts ++ [⟨"Error adding item to cart", "error"⟩] ∧
    (addToCart dom r).dom.loadingDisplay = some ("none") := by
  refine ⟨?_, ?_, rfl, rfl, ?_⟩
  · simp [addToCart, showLoading, showToast, hideLoading, updateCartBadgeWith, hb,
      jsNumString, jsNumPos]
  · simp [addToCart, showLoading, showToast, hideLoading, updateCartBadgeWith, hb]
  · cases r with
    | ok data =>
        by_cases h : data.success <;>
          simp [addToCart, h, showLoading, showToast, hideLoading, updateCartBadgeWith, hb]
    | fail => rfl

/-- Witness for C6 at the spec example: cart_count 3 renders as badge text
3 with the badge made visible. -/
theorem C6_addToCart_contract_witness :
    initialDom.cartBadge = some ⟨"0", "none"⟩ ∧
    (addToCart initialDom (.ok ⟨true, some ("ok"), some 3, none, none⟩)).dom.cartBadge =
      some ⟨"3", "inline"⟩ := by
  refine ⟨rfl, ?_⟩
  have h := (C6_addToCart_contract initialDom ⟨"0", "none"⟩ 3 (some ("ok")) none none none
    FetchResult.fail rfl).1
  rw [h]
  decide

/-- Claim C10: a failed or countless cart-count poll yields 0, and the
subsequent badge update writes text 0 with display none; on every poll
outcome the badge shows the fetched figure and is visible exactly when
that figure is positive. -/
theorem C10_failed_count_poll_clobbers_badge (dom : Dom) (b : BadgeEl)
    (r : FetchResult CountResponse) (hb : dom.cartBadge = some b)
    (hz : fetchCartCount r = 0) :
    fetchCartCount FetchResult.fail = 0 ∧
    (∀ c : Option Int, c = none ∨ c = some 0 → fetchCartCount (.ok ⟨c⟩) = 0) ∧
    (updateCartBadgeAuto dom r).cartBadge = some ⟨"0", "none"⟩ ∧
    (∀ r2 : FetchResult CountResponse, (updateCartBadgeAuto dom r2).cartBadge =
      some ⟨toString (fetchCartCount r2),
        if 0 < fetchCartCount r2 then "inline" else "none"⟩) := by
  refine ⟨rfl, ?_, ?_, ?_⟩
  · rintro c (rfl | rfl) <;> rfl
  · rw [show (some ⟨"0", "none"⟩ : Option BadgeEl) =
        some ⟨toString (fetchCartCount r),
          if 0 < fetchCartCount r then "inline" else "none"⟩ by rw [hz]; decide]
    simp [updateCartBadgeAuto, hb]
  · intro r2
    simp [updateCartBadgeAuto, hb]

/-- Witness for C10: a transport failure of the poll hides the badge and
zeroes its text even when it previously displayed a positive count. -/
theorem C10_failed_count_poll_clobbers_badge_witness :
    fetchCartCount FetchResult.fail = 0 ∧
    (updateCartBadgeAuto { initialDom with cartBadge := some ⟨"5", "inline"⟩ }
      FetchResult.fail).cartBadge = some ⟨"0", "none"⟩ :=
  ⟨(C10_failed_count_poll_clobbers_badge
      { initialDom with cartBadge := some ⟨"5", "inline"⟩ } ⟨"5", "inline"⟩
      FetchResult.fail rfl rfl).1,
    (C10_failed_count_poll_clobbers_badge
      { initialDom with cartBadge := some ⟨"5", "inline"⟩ } ⟨"5", "inline"⟩
      FetchResult.fail rfl rfl).2.2.1⟩

/-- Claim C1 fails as frozen: searchMenu is among the listed operations,
yet a transport failure there issues the request and surfaces no toast at
all (the catch block only logs to the console). -/
theorem C1_counterexample :
    (searchMenu initialDom ("pasta") FetchResult.fail).requests =
      [menuSearchUrl ("pasta")] ∧
    (searchMenu initialDom ("pasta") FetchResult.fail).dom.toasts = [] := by
  constructor <;> decide

/-- Claim C1 (amended): the five user-action handlers — addToCart,
updateCartQuantity, removeFromCart when confirmed, updateOrderStatus and
cancelOrder when confirmed — append an error toast both on a transport
failure and on a success:false payload; the background operations —
searchMenu, loadNotifications, updateOrderStats and the cart-count poll —
surface no toast on a transport failure, which they swallow after logging
to the console. -/
theorem C1_amended_toast_routing (dom : Dom) (menuItemId orderId query : String)
    (msg : Option String) (cc nq ct : Option Int) (hq : 2 ≤ query.length) :
    ((addToCart dom (.ok ⟨false, msg, cc, nq, ct⟩)).dom.toasts =
        dom.toasts ++ [⟨strOr msg ("Failed to add item to cart"), "error"⟩]) ∧
    ((addToCart dom FetchResult.fail).dom.toasts =
        dom.toasts ++ [⟨"Error adding item to cart", "error"⟩]) ∧
    ((updateCartQuantity dom menuItemId (.ok ⟨false, msg, cc, nq, ct⟩)).dom.toasts =
        dom.toasts ++ [⟨strOr msg ("Failed to update cart"), "error"⟩]) ∧
    ((updateCartQuantity dom menuItemId FetchResult.fail).dom.toasts =
        dom.toasts ++ [⟨"Error updating cart", "error"⟩]) ∧
    ((removeFromCart dom menuItemId true (.ok ⟨false, msg, cc, nq, ct⟩)).dom.toasts =
        dom.toasts ++ [⟨strOr msg ("Failed to remove item"), "error"⟩]) ∧
    ((removeFromCart dom menuItemId true FetchResult.fail).dom.toasts =
        dom.toasts ++ [⟨"Error removing item from cart", "error"⟩]) ∧
    ((updateOrderStatus dom (.ok ⟨false, msg⟩)).dom.toasts =
        dom.toasts ++ [⟨strOr msg ("Failed to update order status"), "error"⟩]) ∧
    ((updateOrderStatus dom FetchResult.fail).dom.toasts =
        dom.toasts ++ [⟨"Error updating order status", "error"⟩]) ∧
    ((cancelOrder dom orderId true (.ok ⟨false, msg⟩)).dom.toasts =
        dom.toasts ++ [⟨strOr msg ("Failed to cancel order"), "error"⟩]) ∧
    ((cancelOrder dom orderId true FetchResult.fail).dom.toasts =
        dom.toasts ++ [⟨"Error cancelling order", "error"⟩]) ∧
    ((searchMenu dom query FetchResult.fail).dom = dom) ∧
    ((searchMenu dom query FetchResult.fail).requests = [menuSearchUrl query]) ∧
    ((loadNotifications dom FetchResult.fail).dom = dom) ∧
    ((updateOrderStats dom FetchResult.fail).dom = dom) ∧
    ((updateCartBadgeAuto dom FetchResult.fail).toasts = dom.toasts) := by
  have hnot : ¬ query.length < 2 := Nat.not_lt.mpr hq
  refine ⟨rfl, rfl, rfl, rfl, rfl, rfl, rfl, rfl, rfl, rfl, ?_, ?_, rfl, rfl, ?_⟩
  · simp [searchMenu, hnot]
  · simp [searchMenu, hnot]
  · cases hcb : dom.cartBadge <;> simp [updateCartBadgeAuto, hcb]

/-- Witness for the amended C1: a success:false payload on addToCart
yields exactly one error toast carrying the server message. -/
theorem C1_amended_toast_routing_witness :
    2 ≤ ("ab").length ∧
    (addToCart initialDom (.ok ⟨false, some ("Out of stock"), none, none, none⟩)).dom.toasts =
      [⟨"Out of stock", "error"⟩] := by
  refine ⟨by decide, ?_⟩
  have h := (C1_amended_toast_routing initialDom ("1") ("1") ("ab")
    (some ("Out of stock")) none none none (by decide)).1
  rw [h]
  decide

/-- Claim C7: every cart figure the page displays is the verbatim
rendering of a server-supplied field — new_quantity for the per-item
display, cart_count for the badge, cart_total for the total, and the
count endpoint value for the polled badge — never a client-side
computation. -/
theorem C7_displayed_values_verbatim_from_server (dom : Dom) (menuItemId : String)
    (b : BadgeEl) (qt tt : String) (msg : Option String) (n q t : Int)
    (hb : dom.cartBadge = some b) (hqt : dom.quantityText menuItemId = some qt)
    (htt : dom.cartTotalText = some tt) :
    ((updateCartQuantity dom menuItemId
        (.ok ⟨true, msg, some n, some q, some t⟩)).dom.quantityText menuItemId =
      some (toString q)) ∧
    ((updateCartQuantity dom menuItemId
        (.ok ⟨true, msg, some n, some q, some t⟩)).dom.cartBadge =
      some ⟨toString n, if 0 < n then "inline" else "none"⟩) ∧
    ((updateCartQuantity dom menuItemId
        (.ok ⟨true, msg, some n, some q, some t⟩)).dom.cartTotalText =
      some (toString t ++ " XAF")) ∧
    ((addToCart dom (.ok ⟨true, msg, some n, some q, some t⟩)).dom.cartBadge =
      some ⟨toString n, if 0 < n then "inline" else "none"⟩) ∧
    ((removeFromCart dom menuItemId true
        (.ok ⟨true, msg, some n, some q, some t⟩)).dom.cartBadge =
      some ⟨toString n, if 0 < n then "inline" else "none"⟩) ∧
    ((removeFromCart dom menuItemId true
        (.ok ⟨true, msg, some n, some q, some t⟩)).dom.cartTotalText =
      some (toString t ++ " XAF")) ∧
    (∀ m : Int, fetchCartCount (.ok ⟨some m⟩) = m) ∧
    (∀ r : FetchResult CountResponse, (updateCartBadgeAuto dom r).cartBadge =
      some ⟨toString (fetchCartCount r),
        if 0 < fetchCartCount r then "inline" else "none"⟩) := by
  refine ⟨?_, ?_, ?_, ?_, ?_, ?_, ?_, ?_⟩
  · simp [updateCartQuantity, setQuantityText, updateCartBadgeWith, updateCartTotal,
      hb, hqt, htt, jsNumString]
  · simp [updateCartQuantity, setQuantityText, updateCartBadgeWith, updateCartTotal,
      hb, hqt, htt, jsNumString, jsNumPos]
  · simp [updateCartQuantity, setQuantityText, updateCartBadgeWith, updateCartTotal,
      hb, hqt, htt, jsNumString]
  · simp [addToCart, showLoading, showToast, hideLoading, updateCartBadgeWith, hb,
      jsNumString, jsNumPos]
  · simp [removeFromCart, updateCartBadgeWith, updateCartTotal, showToast, hb, htt,
      jsNumString, jsNumPos]
  · simp [removeFromCart, updateCartBadgeWith, updateCartTotal, showToast, hb, htt,
      jsNumString]
  · intro m
    by_cases hm : m = 0 <;> simp [fetchCartCount, numOrZero, hm]
  · intro r
    simp [updateCartBadgeAuto, hb]

/-- Witness for C7: a successful quantity update displays exactly the
figures of the response. -/
theorem C7_displayed_values_verbatim_from_server_witness :
    cartPageDom.cartBadge = some ⟨"0", "none"⟩ ∧
    cartPageDom.quantityText ("7") = some ("1") ∧
    cartPageDom.cartTotalText = some ("500 XAF") ∧
    (updateCartQuantity cartPageDom ("7")
        (.ok ⟨true, none, some 2, some 2, some 1000⟩)).dom.quantityText ("7") =
      some (toString (2 : Int)) := by
  refine ⟨rfl, by decide, rfl, ?_⟩
  exact (C7_displayed_values_verbatim_from_server cartPageDom ("7") ⟨"0", "none"⟩ ("1")
    ("500 XAF") none 2 2 1000 rfl (by decide) rfl).1

/-- Helper: under a tight keystroke sequence every timer but the last is
cleared, so the debounced callback runs exactly once, 300 ms after the
last keystroke, on the text present at that keystroke. -/
theorem debounceRuns_tight (ks : List (Nat × String)) (tl : Nat) (sl : String)
    (ht : tightSeq (ks ++ [(tl, sl)]) = true) :
    debounceRuns (ks ++ [(tl, sl)]) = [(tl + 300, sl)] := by
  induction ks with
  | nil => rfl
  | cons a ks ih =>
    obtain ⟨t1, s1⟩ := a
    cases ks with
    | nil =>
        simp only [List.cons_append, List.nil_append, tightSeq, Bool.and_eq_true,
          decide_eq_true_eq] at ht
        simp only [List.cons_append, List.nil_append, debounceRuns]
        rw [if_pos ht.1.2]
    | cons b ks2 =>
        obtain ⟨t2, s2⟩ := b
        simp only [List.cons_append, tightSeq, Bool.and_eq_true,
          decide_eq_true_eq] at ht
        have ih2 := ih (by
          simp only [List.cons_append, tightSeq, Bool.and_eq_true, decide_eq_true_eq]
          exact ht.2)
        simp only [List.cons_append] at ih2 ⊢
        rw [debounceRuns, if_pos ht.1.2]
        exact ih2

/-- Claim C4 fails as frozen: a single keystroke leaving a one-character
query is a sequence of N = 1 input events, the debounced callback does run
300 ms later, yet searchMenu issues zero network requests for it, not
exactly one. -/
theorem C4_counterexample :
    tightSeq [(0, "a")] = true ∧
    debounceRuns [(0, "a")] = [(300, "a")] ∧
    (searchMenu initialDom ("a") (FetchResult.ok ⟨[]⟩)).requests = [] := by
  refine ⟨rfl, rfl, ?_⟩
  decide

/-- Claim C4 (amended): N keystrokes each less than 300 ms apart trigger
exactly one debounced searchMenu invocation, fired 300 ms after the last
keystroke on the text present at that keystroke; that invocation issues
exactly one network request when the text has at least 2 characters and
none otherwise. -/
theorem C4_amended_debounce_single_fire (ks : List (Nat × String)) (tl : Nat)
    (sl : String) (dom : Dom) (r : FetchResult SearchResponse)
    (ht : tightSeq (ks ++ [(tl, sl)]) = true) :
    debounceRuns (ks ++ [(tl, sl)]) = [(tl + 300, sl)] ∧
    (searchMenu dom sl r).requests =
      (if 2 ≤ sl.length then [menuSearchUrl sl] else []) := by
  refine ⟨debounceRuns_tight ks tl sl ht, ?_⟩
  by_cases h : sl.length < 2
  · have h2 : ¬ 2 ≤ sl.length := by omega
    simp [searchMenu, h, h2]
  · have h2 : 2 ≤ sl.length := by omega
    cases r <;> simp [searchMenu, h, h2]

/-- Witness for the amended C4: three rapid keystrokes produce one fire at
the last keystroke plus 300 ms, carrying the final text, and that text
being 3 characters long yields exactly one request. -/
theorem C4_amended_debounce_single_fire_witness :
    tightSeq [(0, "r"), (100, "ri"), (250, "ric")] = true ∧
    debounceRuns [(0, "r"), (100, "ri"), (250, "ric")] = [(550, "ric")] ∧
    (searchMenu initialDom ("ric") FetchResult.fail).requests =
      (if 2 ≤ ("ric").length then [menuSearchUrl ("ric")] else []) := by
  refine ⟨by decide, ?_, ?_⟩
  · exact (C4_amended_debounce_single_fire [(0, "r"), (100, "ri")] 250 ("ric")
      initialDom FetchResult.fail (by decide)).1
  · exact (C4_amended_debounce_single_fire [(0, "r"), (100, "ri")] 250 ("ric")
      initialDom FetchResult.fail (by decide)).2

/-- Claim C8 fails as frozen: no fixed limit bounds the number of rendered
search result rows — the rendering maps every returned item to a row. -/
theorem C8_counterexample :
    ¬ ∃ B : Nat, ∀ items : List SearchItem,
      (searchResultRows items).length ≤ B := by
  rintro ⟨B, hB⟩
  have h := hB (List.replicate (B + 1) ⟨"1", "x", 0, none⟩)
  simp [searchResultRows] at h

/-- Claim C8 (amended): displaySearchResults renders one row per returned
item — the row count equals the item count, with no client-side cap — and
a non-empty result replaces the panel content with exactly the joined rows
and unhides the panel. -/
theorem C8_amended_one_row_per_item (dom : Dom) (items : List SearchItem)
    (p : SearchPanel) (hp : dom.searchResults = some p) (hne : items ≠ []) :
    (searchResultRows items).length = items.length ∧
    (displaySearchResults dom items).searchResults =
      some ⟨false, String.join (searchResultRows items)⟩ := by
  constructor
  · simp [searchResultRows]
  · have hlen : ¬ items.length = 0 := by simpa using hne
    simp [displaySearchResults, hp, hlen]

/-- Witness for the amended C8 on a two-item response: two rows. -/
theorem C8_amended_one_row_per_item_witness :
    initialDom.searchResults = some ⟨true, ""⟩ ∧
    ([(⟨"1", "Rice", 500, none⟩ : SearchItem), ⟨"2", "Beans", 300, none⟩] ≠
      ([] : List SearchItem)) ∧
    (searchResultRows [⟨"1", "Rice", 500, none⟩, ⟨"2", "Beans", 300, none⟩]).length = 2 :=
  ⟨rfl, by simp,
    (C8_amended_one_row_per_item initialDom
      [⟨"1", "Rice", 500, none⟩, ⟨"2", "Beans", 300, none⟩] ⟨true, ""⟩ rfl (by simp)).1⟩

/-- Claim C9: the refresh runs once at startup (time 0) and then on a
fixed 30-second cadence; a notification refresh writes menu and badge as a
function of the fetched snapshot alone, independent of whatever was
displayed before (wholesale replacement, no merging); re-rendering the
same snapshot is idempotent on the page. -/
theorem C9_polling_schedule_and_replacement :
    (refreshTimes 0 = 0 ∧ ∀ k : Nat, refreshTimes (k + 1) = refreshTimes k + 30000) ∧
    (∀ dom1 dom2 : Dom, ∀ ns : List NotificationItem,
      dom1.notifMenu.isSome = true → dom2.notifMenu.isSome = true →
      (notifRefresh dom1 ns).notifMenu = (notifRefresh dom2 ns).notifMenu) ∧
    (∀ dom1 dom2 : Dom, ∀ ns : List NotificationItem,
      dom1.notifBadge.isSome = true → dom2.notifBadge.isSome = true →
      (notifRefresh dom1 ns).notifBadge = (notifRefresh dom2 ns).notifBadge) ∧
    (∀ dom : Dom, ∀ ns : List NotificationItem,
      notifRefresh (notifRefresh dom ns) ns = notifRefresh dom ns) := by
  refine ⟨⟨rfl, ?_⟩, ?_, ?_, ?_⟩
  · intro k
    cases k with
    | zero => rfl
    | succ m =>
        simp only [refreshTimes, setIntervalTimes]
        omega
  · intro dom1 dom2 ns h1 h2
    cases hb1 : dom1.notifBadge <;> cases hb2 : dom2.notifBadge <;>
      cases hm1 : dom1.notifMenu <;> cases hm2 : dom2.notifMenu <;>
        simp_all [notifRefresh, displayNotifications, updateNotificationBadge]
  · intro dom1 dom2 ns h1 h2
    cases hb1 : dom1.notifBadge <;> cases hb2 : dom2.notifBadge <;>
      cases hm1 : dom1.notifMenu <;> cases hm2 : dom2.notifMenu <;>
        simp_all [notifRefresh, displayNotifications, updateNotificationBadge]
  · intro dom ns
    cases hb : dom.notifBadge <;> cases hm : dom.notifMenu <;>
      simp [notifRefresh, displayNotifications, updateNotificationBadge, hb, hm]

/-- Witness for C9: rendering the same snapshot over a page whose menu
held stale markup gives the same menu content as rendering it over the
pristine page, and at time index 2 the cadence reads 60000 ms. -/
theorem C9_polling_schedule_and_replacement_witness :
    initialDom.notifMenu.isSome = true ∧
    ({ initialDom with notifMenu := some ("<li>stale</li>") } : Dom).notifMenu.isSome = true ∧
    (notifRefresh initialDom [⟨"t", "m", "u", "now"⟩]).notifMenu =
      (notifRefresh { initialDom with notifMenu := some ("<li>stale</li>") }
        [⟨"t", "m", "u", "now"⟩]).notifMenu ∧
    refreshTimes 2 = 60000 := by
  refine ⟨rfl, rfl, ?_, ?_⟩
  · exact (C9_polling_schedule_and_replacement).2.1 initialDom
      { initialDom with notifMenu := some ("<li>stale</li>") }
      [⟨"t", "m", "u", "now"⟩] rfl rfl
  · have h2 : refreshTimes 2 = refreshTimes 1 + 30000 :=
      (C9_polling_schedule_and_replacement).1.2 1
    have h1 : refreshTimes 1 = refreshTimes 0 + 30000 :=
      (C9_polling_schedule_and_replacement).1.2 0
    have h0 := (C9_polling_schedule_and_replacement).1.1
    omega

end OapiDashboard
